import Mathlib

/-!
Verification of the picfit `engine/backend` image-transformation core
(`src/engine/backend/goimage.go`), shallowly embedded in Lean 4.

Modelling conventions:
* Go `float64`/`float32` arithmetic in the scaling policy and luminance code is
  embedded over `ℚ`; every constant of the source (`0.03928`, `12.92`, `0.55`,
  `1.055`, the luminance weights) is carried exactly.  All concrete inputs used
  in theorems are far from binary-rounding boundaries.
* Decoded rasters are values of an inductive `Img` type that records the decoded
  dimensions and the provenance of every transformation applied to them; the
  pixel-level work of the external `imaging`/`draw` libraries is represented by
  provenance constructors (the spec scopes the engine to orchestration and
  policy on top of those primitives).
* Encoders (`jpeg.Encode`, `png.Encode`, ...) are external codecs; they are
  parameters of the embedding (`Codecs`), each returning the bytes it wrote to
  the output writer together with an optional error, exactly the shape of a Go
  `(w io.Writer)` encoder call followed by an `err` check.
* `imaging.Format` is a Go integer enumeration: JPEG=0, PNG=1, GIF=2, TIFF=3,
  BMP=4; any other integer falls to the `default` branch of `encode`.
-/

namespace Picfit

/-- The resample transformations of type `transformation` that the engine
dispatches (`imaging.Resize`, `imaging.Thumbnail`, `imaging.Fit`). -/
inductive Transformation where
  | resize
  | thumbnail
  | fit
  deriving DecidableEq, Repr

/-- The orientation transformations of type `imageTransformation`
(`imaging.Rotate90/180/270`, `imaging.FlipH/FlipV`). -/
inductive Orientation where
  | rotate90
  | rotate180
  | rotate270
  | flipH
  | flipV
  deriving DecidableEq, Repr

/-- A decoded raster.  `raster w h` is a freshly decoded image whose bounds are
`(0,0)-(w,h)`; the other constructors record the provenance of library calls
whose pixel-level output the engine never re-inspects on the code paths
modelled here (the engine only ever reads the size of freshly decoded
rasters). -/
inductive Img where
  /-- a decoded source raster with `Bounds().Max = (w, h)` -/
  | raster (w h : ℤ)
  /-- result of `trans(img, width, height, imaging.Lanczos)` -/
  | transformed (t : Transformation) (width height : ℤ) (base : Img)
  /-- result of an `imageTransformation` (rotate/flip) -/
  | oriented (o : Orientation) (base : Img)
  /-- result of `draw.Draw(acc, bounds, frame, bounds.Min, draw.Over)` -/
  | composited (acc frame : Img)
  /-- result of `imageToPaletted` (Plan9 palette, Floyd–Steinberg) -/
  | paletted (base : Img)
  /-- result of `createWatermark` (watermark alpha-blended over the base) -/
  | watermarked (base : Img)
  deriving DecidableEq, Repr

/-- `imageSize` returns `e.Bounds().Max.X, e.Bounds().Max.Y`.  On the code
paths modelled here it is only ever applied to freshly decoded rasters; for
transformed provenance nodes we return the requested target size (the engine
never reads those). -/
def imageSize : Img → ℤ × ℤ
  | .raster w h => (w, h)
  | .transformed _ w h _ => (w, h)
  | .oriented _ base => imageSize base
  | .composited acc _ => imageSize acc
  | .paletted base => imageSize base
  | .watermarked base => imageSize base

/-- Number of provenance nodes wrapped around the decoded raster; a library
call always adds one, so no transformation result is equal to its input. -/
def provenanceDepth : Img → ℕ
  | .raster _ _ => 0
  | .transformed _ _ _ base => provenanceDepth base + 1
  | .oriented _ base => provenanceDepth base + 1
  | .composited acc _ => provenanceDepth acc + 1
  | .paletted base => provenanceDepth base + 1
  | .watermarked base => provenanceDepth base + 1

/-- The engine's `Options` struct, restricted to the fields `goimage.go`
reads: width, height, upscale, output format, quality, rotation degree, flip
position.  `format` is the integer `imaging.Format` enumeration. -/
structure Options where
  width : ℤ
  height : ℤ
  upscale : Bool
  format : ℤ
  quality : ℤ
  degree : ℤ
  position : String
  deriving DecidableEq, Repr

/-- `imaging.Format` constants (a Go `iota` enumeration). -/
def JPEG : ℤ := 0
def PNG : ℤ := 1
def GIF : ℤ := 2
def TIFF : ℤ := 3
def BMP : ℤ := 4

/-- `scalingFactor(srcWidth, srcHeight, destWidth, destHeight)` returns
`math.Max(destWidth/srcWidth, destHeight/srcHeight)`. -/
def scalingFactor (srcWidth srcHeight destWidth destHeight : ℤ) : ℚ :=
  max ((destWidth : ℚ) / (srcWidth : ℚ)) ((destHeight : ℚ) / (srcHeight : ℚ))

/-- `scalingFactorImage(img, dstWidth, dstHeight)`: the scaling factor against
the image's own size. -/
def scalingFactorImage (img : Img) (dstWidth dstHeight : ℤ) : ℚ :=
  scalingFactor (imageSize img).1 (imageSize img).2 dstWidth dstHeight

/-- The condition of `scale`'s `if`: `factor < 1 || options.Upscale`.  This is
the spec's `should_transform(factor, upscale_allowed)`. -/
def shouldTransform (factor : ℚ) (upscale : Bool) : Bool :=
  decide (factor < 1) || upscale

/-- `scale(img, options, trans)`: apply `trans(img, options.Width,
options.Height, imaging.Lanczos)` when the factor is `< 1` or upscaling is
allowed, otherwise return `img` unchanged. -/
def scale (img : Img) (options : Options) (trans : Transformation) : Img :=
  if shouldTransform (scalingFactorImage img options.width options.height) options.upscale then
    .transformed trans options.width options.height img
  else
    img

/-- Semantic error categories of the engine (`fmt.Errorf` strings and
`imaging.ErrUnsupportedFormat` in the source). -/
inductive EngineError where
  /-- "Invalid rotate transformation degree=%d is not supported" -/
  | unsupportedDegree (degree : ℤ)
  /-- "Invalid flip transformation, %s is not supported" -/
  | unsupportedAxis (position : String)
  /-- `imaging.ErrUnsupportedFormat` -/
  | unsupportedFormat
  /-- an error surfaced by an external encoder library -/
  | codecError (msg : String)
  deriving DecidableEq, Repr

/-- The external encoder libraries (`jpeg.Encode`, `png.Encode`, `gif.Encode`,
`tiff.Encode`, `bmp.Encode`).  Each call writes bytes to an `io.Writer` and
returns an optional error, so it is embedded as the pair of the bytes written
so far and that optional error. -/
structure Codecs where
  jpegEncode : Img → ℤ → List ℕ × Option EngineError
  pngEncode : Img → List ℕ × Option EngineError
  gifEncode : Img → ℤ → List ℕ × Option EngineError
  tiffEncode : Img → List ℕ × Option EngineError
  bmpEncode : Img → List ℕ × Option EngineError

/-- `createWatermark(base)`: alpha-blends a watermark asset (chosen from the
base's dominant color and its `FindLuminenace` score) centered over the base.
The embedding records only the provenance: the choice between the two asset
variants does not change which raster reaches the encoder, and no claim
depends on the variant chosen. -/
def createWatermark (base : Img) : Img :=
  .watermarked base

/-- `encode(w, img, format, quality)`: the `switch format` of the source.
JPEG passes the raster through `createWatermark` first (the `*image.NRGBA`
opaque-buffer reinterpretation feeds the same raster either way); PNG, TIFF
and BMP encode directly; GIF encodes with `NumColors: 256`; every other
format value falls to `default:` and yields `imaging.ErrUnsupportedFormat`
with nothing written. -/
def encode (c : Codecs) (img : Img) (format quality : ℤ) : List ℕ × Option EngineError :=
  if format = JPEG then c.jpegEncode (createWatermark img) quality
  else if format = PNG then c.pngEncode img
  else if format = GIF then c.gifEncode img 256
  else if format = TIFF then c.tiffEncode img
  else if format = BMP then c.bmpEncode img
  else ([], some .unsupportedFormat)

/-- `toBytes`: run `encode` into a fresh buffer; on error return `nil, err`
(the bytes already in the buffer are discarded), otherwise `buf.Bytes()`. -/
def toBytes (c : Codecs) (img : Img) (format quality : ℤ) : Except EngineError (List ℕ) :=
  match encode c img format quality with
  | (_, some e) => .error e
  | (bs, none) => .ok bs

/-- The `rotateTransformations` map: keys 90, 270, 180. -/
def rotateTransformations (degree : ℤ) : Option Orientation :=
  if degree = 90 then some .rotate90
  else if degree = 270 then some .rotate270
  else if degree = 180 then some .rotate180
  else none

/-- The `flipTransformations` map: keys "h", "v". -/
def flipTransformations (position : String) : Option Orientation :=
  if position = "h" then some .flipH
  else if position = "v" then some .flipV
  else none

/-- `GoImage.Rotate` after a successful `e.source` decode (`decoded` is the
decoded raster): look up the degree in `rotateTransformations`; a missing key
returns the error with no bytes, otherwise encode the oriented raster. -/
def Rotate (c : Codecs) (decoded : Img) (options : Options) : Except EngineError (List ℕ) :=
  match rotateTransformations options.degree with
  | none => .error (.unsupportedDegree options.degree)
  | some o => toBytes c (.oriented o decoded) options.format options.quality

/-- `GoImage.Flip` after a successful decode, mirroring `Rotate` over
`flipTransformations`. -/
def Flip (c : Codecs) (decoded : Img) (options : Options) : Except EngineError (List ℕ) :=
  match flipTransformations options.position with
  | none => .error (.unsupportedAxis options.position)
  | some o => toBytes c (.oriented o decoded) options.format options.quality

/-- What a transform pipeline run produces, at the orchestration level:
`passThrough source` is `return img.Source, nil` (the caller's encoded bytes
verbatim, the only branch that skips re-encoding); `gifEncode frames w h` is
`gif.EncodeAll` of the container holding `frames` with `Config.Width/Height`
set to `w`/`h`; `bytesEncode img fmt q` is `e.toBytes(img, fmt, q)`, a
re-encode of `img`. -/
inductive TransformResult where
  | passThrough (source : List ℕ)
  | gifEncode (frames : List Img) (width height : ℤ)
  | bytesEncode (img : Img) (format quality : ℤ)
  deriving DecidableEq, Repr

/-- The frame loop of `transformGIF`: `im` is the accumulator canvas; each
frame is drawn over it (`draw.Over`, cumulative since `im` is reused), the
accumulated canvas is scaled and re-quantized (`imageToPaletted`), and the
result replaces the frame. -/
def gifFrameLoop (options : Options) (trans : Transformation) : Img → List Img → List Img
  | _, [] => []
  | im, frame :: rest =>
    let im' := .composited im frame
    .paletted (scale im' options trans) :: gifFrameLoop options trans im' rest

/-- The dimension back-fill of `transformGIF`: a zero width is derived from
the height and the first frame's aspect ratio with round-half-up
(`math.Floor(tmp+0.5)`) floored at 1, then a zero height likewise from the
(possibly just-updated) width.  `srcW`, `srcH` are `imageSize(first)`. -/
def backfillDims (srcW srcH : ℤ) (options : Options) : Options :=
  let options :=
    if options.width = 0 then
      { options with width := max 1 ⌊(options.height : ℚ) * srcW / srcH + 1 / 2⌋ }
    else options
  if options.height = 0 then
    { options with height := max 1 ⌊(options.width : ℚ) * srcH / srcW + 1 / 2⌋ }
  else options

/-- `GoImage.transformGIF` after the two decodes succeed: `first` is
`gif.Decode`'s first frame, `frames` is `g.Image` from `gif.DecodeAll` (a GIF
container always holds at least one frame, so the accumulator bounds
`g.Image[0].Bounds()` are read off the head of `frames`).  When the scaling
factor against the first frame exceeds 1 and upscaling is not allowed, the
caller's source bytes are returned verbatim; otherwise every frame is
composited, scaled and re-quantized, and the container is re-encoded with
back-filled dimensions. -/
def transformGIF (source : List ℕ) (first : Img) (frames : List Img)
    (options : Options) (trans : Transformation) : TransformResult :=
  if 1 < scalingFactorImage first options.width options.height ∧ options.upscale = false then
    .passThrough source
  else
    let b := imageSize (frames.headD first)
    let outFrames := gifFrameLoop options trans (.raster b.1 b.2) frames
    let resolved := backfillDims (imageSize first).1 (imageSize first).2 options
    .gifEncode outFrames resolved.width resolved.height

/-- `GoImage.Fit` after the relevant decodes succeed: a GIF-format request is
delegated to `transformGIF` with the `imaging.Thumbnail` per-frame
transformation; any other format decodes once and goes through
`transform` = `toBytes ∘ scale` with the `imaging.Fit` transformation. -/
def Fit (source : List ℕ) (decoded : Img) (frames : List Img) (options : Options) :
    TransformResult :=
  if options.format = GIF then
    transformGIF source decoded frames options .thumbnail
  else
    .bytesEncode (scale decoded options .fit) options.format options.quality

/-- The Go `RGB` struct: three 8-bit channels. -/
structure RGB where
  Red : ℕ
  Green : ℕ
  Blue : ℕ
  deriving DecidableEq, Repr

/-- Value of one hexadecimal digit, as `strconv` accepts them. -/
def hexDigitValue (ch : Char) : Option ℕ :=
  if '0' ≤ ch ∧ ch ≤ '9' then some (ch.toNat - 48)
  else if 'a' ≤ ch ∧ ch ≤ 'f' then some (ch.toNat - 87)
  else if 'A' ≤ ch ∧ ch ≤ 'F' then some (ch.toNat - 55)
  else none

/-- Go `strconv.ParseUint(s, 16, 32)`: succeeds exactly on a nonempty string
of hexadecimal digits whose value fits in 32 bits (sign and `0x` prefixes and
underscores are rejected when an explicit base is given; on range overflow Go
returns a non-nil error, which the caller treats as failure). -/
def parseUintHex32 (s : List Char) : Option ℕ :=
  match s.mapM hexDigitValue with
  | none => none
  | some ds =>
    if ds = [] then none
    else
      let v := ds.foldl (fun acc d => 16 * acc + d) 0
      if v < 2 ^ 32 then some v else none

/-- `Hex2RGB(hex)`: parse with `strconv.ParseUint(string(hex), 16, 32)`,
propagate any parse error, otherwise `Red = uint8(values >> 16)`,
`Green = uint8((values >> 8) & 0xFF)`, `Blue = uint8(values & 0xFF)` (the
`uint8` conversions truncate modulo 256). -/
def Hex2RGB (hex : String) : Option RGB :=
  match parseUintHex32 hex.data with
  | none => none
  | some values =>
    some ⟨values / 2 ^ 16 % 2 ^ 8, values / 2 ^ 8 % 2 ^ 8, values % 2 ^ 8⟩

/-- `FindLuminenace(items)`: the `for _, v := range items` loop divides the
channel by 255 and *returns from its first iteration in both branches*
(`v/12.92` in the low branch, `((v+0.55)/1.055)*2` in the high branch), so
control reaches the code after the loop only when `items` is empty — and
there `items[0]` in the weighted sum
`items[0]*0.2126 + items[1]*0.7152 + items[2]*0.07222` is an out-of-range
index (a Go panic), embedded as `none`. -/
def FindLuminenace (items : List ℚ) : Option ℚ :=
  match items with
  | v :: _ =>
    let v := v / 255
    if v ≤ 3928 / 100000 then some (v / (1292 / 100))
    else some ((v + 55 / 100) / (1055 / 1000) * 2)
  | [] => none

/-- Follows the spec's words (§4.1 intended contract), for comparison with
`FindLuminenace`: the ITU-R BT.709 / sRGB piecewise per-channel gamma
correction — a low-valued channel is divided by 12.92, a high-valued channel
goes through the power-law branch, abstracted as an arbitrary function `hi`
(it has no closed rational form) — with the three corrected channels combined
by the weighted sum with weights 0.2126, 0.7152, 0.0722. -/
def relativeLuminanceSpec (hi : ℚ → ℚ) (r g b : ℚ) : ℚ :=
  let corr := fun v : ℚ =>
    let v := v / 255
    if v ≤ 3928 / 100000 then v / (1292 / 100) else hi v
  2126 / 10000 * corr r + 7152 / 10000 * corr g + 722 / 10000 * corr b

/-- A concrete assignment of the external encoder libraries, used to
instantiate theorems quantified over `Codecs` at a definite input. -/
def trivialCodecs : Codecs where
  jpegEncode := fun _ _ => ([], none)
  pngEncode := fun _ => ([], none)
  gifEncode := fun _ _ => ([], none)
  tiffEncode := fun _ => ([], none)
  bmpEncode := fun _ => ([], none)

/-! ### Helper lemmas -/

theorem shouldTransform_iff (factor : ℚ) (upscale : Bool) :
    shouldTransform factor upscale = true ↔ (factor < 1 ∨ upscale = true) := by
  simp [shouldTransform]

theorem transformed_ne_base (t : Transformation) (w h : ℤ) (img : Img) :
    Img.transformed t w h img ≠ img := by
  intro he
  have hd : provenanceDepth (Img.transformed t w h img) = provenanceDepth img :=
    congrArg provenanceDepth he
  simp [provenanceDepth] at hd

theorem scale_eq_self_iff (img : Img) (options : Options) (trans : Transformation) :
    scale img options trans = img ↔
      ¬(scalingFactorImage img options.width options.height < 1 ∨ options.upscale = true) := by
  unfold scale
  by_cases h :
      scalingFactorImage img options.width options.height < 1 ∨ options.upscale = true
  · rw [if_pos ((shouldTransform_iff _ _).mpr h)]
    simp [transformed_ne_base, h]
  · rw [if_neg (fun hb => h ((shouldTransform_iff _ _).mp hb))]
    simp [h]

/-! ### Claim theorems -/

/-- C6: the scale step applies the resample transform if and only if the
scaling factor is strictly less than 1 or the upscale-allowed flag is set, and
otherwise returns the original raster unchanged; equivalently,
`should_transform(factor, false)` holds iff `factor < 1`, and
`should_transform(factor, true)` always holds. -/
theorem c6_scale_policy (img : Img) (options : Options) (trans : Transformation)
    (factor : ℚ) :
    (shouldTransform factor false = true ↔ factor < 1) ∧
    (shouldTransform factor true = true) ∧
    (scale img options trans = Img.transformed trans options.width options.height img ↔
      (scalingFactorImage img options.width options.height < 1 ∨ options.upscale = true)) ∧
    (scale img options trans = img ↔
      ¬(scalingFactorImage img options.width options.height < 1 ∨ options.upscale = true)) := by
  refine ⟨by simp [shouldTransform], by simp [shouldTransform], ?_, scale_eq_self_iff _ _ _⟩
  unfold scale
  by_cases h :
      scalingFactorImage img options.width options.height < 1 ∨ options.upscale = true
  · rw [if_pos ((shouldTransform_iff _ _).mpr h)]
    simp [h]
  · rw [if_neg (fun hb => h ((shouldTransform_iff _ _).mp hb))]
    simp [h]
    exact fun he => (transformed_ne_base trans options.width options.height img) he.symm

/-- C7: for positive source dimensions, `scalingFactor` equals
`max(dst_w/src_w, dst_h/src_h)`, the uniform factor that covers the
destination box; a 100×50 source with destination 50×50 yields
`max(0.5, 1.0) = 1.0`, and with upscale disabled the scale step passes the
image through unscaled. -/
theorem c7_scalingFactor (srcW srcH dstW dstH : ℤ) (hw : 0 < srcW) (hh : 0 < srcH) :
    scalingFactor srcW srcH dstW dstH =
      max ((dstW : ℚ) / (srcW : ℚ)) ((dstH : ℚ) / (srcH : ℚ)) ∧
    (dstW : ℚ) ≤ scalingFactor srcW srcH dstW dstH * srcW ∧
    (dstH : ℚ) ≤ scalingFactor srcW srcH dstW dstH * srcH ∧
    scalingFactor 100 50 50 50 = max (1 / 2 : ℚ) 1 ∧
    scalingFactor 100 50 50 50 = 1 ∧
    (∀ trans : Transformation,
      scale (.raster 100 50) ⟨50, 50, false, PNG, 85, 0, ""⟩ trans = .raster 100 50) := by
  have hw' : (0 : ℚ) < (srcW : ℚ) := by exact_mod_cast hw
  have hh' : (0 : ℚ) < (srcH : ℚ) := by exact_mod_cast hh
  refine ⟨rfl, ?_, ?_, by norm_num [scalingFactor], by norm_num [scalingFactor], ?_⟩
  · calc (dstW : ℚ) = (dstW : ℚ) / srcW * srcW := by field_simp
      _ ≤ scalingFactor srcW srcH dstW dstH * srcW :=
        mul_le_mul_of_nonneg_right (le_max_left _ _) hw'.le
  · calc (dstH : ℚ) = (dstH : ℚ) / srcH * srcH := by field_simp
      _ ≤ scalingFactor srcW srcH dstW dstH * srcH :=
        mul_le_mul_of_nonneg_right (le_max_right _ _) hh'.le
  · intro trans
    exact (scale_eq_self_iff _ _ _).mpr (by
      norm_num [scalingFactorImage, scalingFactor, imageSize])

/-- Witness for C7 at the concrete scenario 100×50 source, 50×50 box. -/
theorem c7_scalingFactor_witness : scalingFactor 100 50 50 50 = 1 :=
  (c7_scalingFactor 100 50 50 50 (by norm_num) (by norm_num)).2.2.2.2.1

/-- C10: `FindLuminenace` is total on every non-empty channel list and its
result depends only on the first element (the loop returns from its first
iteration in both branches, so the post-loop weighted sum is unreachable for
non-empty input); on the empty list the post-loop indexing `items[0]` is out
of bounds, so the function is defined exactly on non-empty lists. -/
theorem c10_luminance_first_channel (v : ℚ) (xs ys : List ℚ) :
    FindLuminenace (v :: xs) = FindLuminenace (v :: ys) ∧
    (FindLuminenace (v :: xs)).isSome = true ∧
    FindLuminenace ([] : List ℚ) = none ∧
    (∀ items : List ℚ, (FindLuminenace items).isSome = true ↔ items ≠ []) := by
  refine ⟨rfl, ?_, rfl, ?_⟩
  · simp only [FindLuminenace]
    split <;> simp
  · intro items
    cases items with
    | nil => simp [FindLuminenace]
    | cons v rest =>
      simp only [FindLuminenace]
      split <;> simp

/-- C3: the claim states the intended ITU-R BT.709 / sRGB contract — gamma
correction of each of the three channels combined by the weighted sum — but
`FindLuminenace` returns from the first loop iteration, so its result ignores
the second and third channels entirely: on channels (0, 10, 10), all within
the low-valued branch on both readings, the code yields 0 while the weighted
sum is strictly positive whatever the power-law high branch does. -/
theorem c3_luminance_code_bug :
    FindLuminenace [0, 10, 10] = some 0 ∧
    FindLuminenace [0, 0, 0] = some 0 ∧
    (∀ hi : ℚ → ℚ, relativeLuminanceSpec hi 0 0 0 = 0) ∧
    (∀ hi : ℚ → ℚ, relativeLuminanceSpec hi 0 10 10 ≠ 0) := by
  refine ⟨by norm_num [FindLuminenace], by norm_num [FindLuminenace], ?_, ?_⟩
  · intro hi
    norm_num [relativeLuminanceSpec]
  · intro hi
    norm_num [relativeLuminanceSpec]

/-- C4 counterexample: `"1234567"` parses to `0x1234567`, which exceeds 24
significant bits, yet `Hex2RGB` succeeds (Go parses with a 32-bit limit and
`uint8(values >> 16)` silently truncates the red channel), contradicting the
claim that every value over 24 significant bits is rejected. -/
theorem c4_counterexample :
    Hex2RGB "1234567" = some ⟨0x23, 0x45, 0x67⟩ ∧
    parseUintHex32 "1234567".data = some 0x1234567 ∧
    2 ^ 24 ≤ 0x1234567 := by
  decide

/-- C4 amended: `Hex2RGB` parses base-16 with a 32-bit (not 24-bit) limit:
`"1a2b3c"` maps to `{Red: 0x1a, Green: 0x2b, Blue: 0x3c}`, invalid base-16 and
the empty string fail, values of up to 32 significant bits are accepted with
the red channel truncated to the low 8 bits of `value >> 16`, and values of 33
or more bits fail. -/
theorem c4_hex2rgb (s : String) (v : ℕ) :
    Hex2RGB "1a2b3c" = some ⟨0x1a, 0x2b, 0x3c⟩ ∧
    Hex2RGB "xyz" = none ∧
    Hex2RGB "" = none ∧
    Hex2RGB "ffffffff" = some ⟨0xff, 0xff, 0xff⟩ ∧
    Hex2RGB "100000000" = none ∧
    (parseUintHex32 s.data = some v →
      Hex2RGB s = some ⟨v / 2 ^ 16 % 2 ^ 8, v / 2 ^ 8 % 2 ^ 8, v % 2 ^ 8⟩ ∧ v < 2 ^ 32) ∧
    (parseUintHex32 s.data = none → Hex2RGB s = none) := by
  refine ⟨by decide, by decide, by decide, by decide, by decide, ?_, ?_⟩
  · intro h
    refine ⟨by unfold Hex2RGB; rw [h], ?_⟩
    unfold parseUintHex32 at h
    split at h
    · exact absurd h (by simp)
    · split at h
      · exact absurd h (by simp)
      · dsimp only at h
        split at h
        · rename_i hlt
          rw [Option.some.injEq] at h
          exact h ▸ hlt
        · exact absurd h (by simp)
  · intro h
    unfold Hex2RGB
    rw [h]

/-- Witness for C4 at the truncating input `"1234567"`. -/
theorem c4_hex2rgb_witness :
    Hex2RGB "1234567" =
      some ⟨0x1234567 / 2 ^ 16 % 2 ^ 8, 0x1234567 / 2 ^ 8 % 2 ^ 8, 0x1234567 % 2 ^ 8⟩ ∧
    0x1234567 < 2 ^ 32 :=
  (c4_hex2rgb "1234567" 0x1234567).2.2.2.2.2.1 (by decide)

/-- C8: for every decoded raster, `Rotate` with a degree outside
{90, 180, 270} fails with the unsupported-degree error and `Flip` with a
position outside {"h", "v"} fails with the unsupported-axis error; in both
cases the result is the error alone, with no output bytes, whatever the
encoders do. -/
theorem c8_rotate_flip_errors (c : Codecs) (decoded : Img) (options : Options)
    (hd : options.degree ≠ 90 ∧ options.degree ≠ 180 ∧ options.degree ≠ 270)
    (hp : options.position ≠ "h" ∧ options.position ≠ "v") :
    Rotate c decoded options = .error (.unsupportedDegree options.degree) ∧
    Flip c decoded options = .error (.unsupportedAxis options.position) := by
  constructor
  · unfold Rotate rotateTransformations
    rw [if_neg hd.1, if_neg hd.2.2, if_neg hd.2.1]
  · unfold Flip flipTransformations
    rw [if_neg hp.1, if_neg hp.2]

/-- Witness for C8 at degree 45 and position "diagonal". -/
theorem c8_rotate_flip_errors_witness :
    Rotate trivialCodecs (.raster 8 8) ⟨0, 0, false, 0, 85, 45, "diagonal"⟩ =
      .error (.unsupportedDegree 45) ∧
    Flip trivialCodecs (.raster 8 8) ⟨0, 0, false, 0, 85, 45, "diagonal"⟩ =
      .error (.unsupportedAxis "diagonal") :=
  c8_rotate_flip_errors trivialCodecs (.raster 8 8) ⟨0, 0, false, 0, 85, 45, "diagonal"⟩
    (by refine ⟨?_, ?_, ?_⟩ <;> decide)
    (by refine ⟨?_, ?_⟩ <;> decide)

/-- C9: `encode` with a requested output format outside the five supported
ones fails with the unsupported-format error regardless of the raster,
quality, and encoder behavior, writing nothing; and on every encode error
(whatever bytes an encoder had already written to the buffer) `toBytes`
returns the error alone, never partial output. -/
theorem c9_encode_unsupported (c : Codecs) (img : Img) (format quality : ℤ)
    (h0 : format ≠ JPEG) (h1 : format ≠ PNG) (h2 : format ≠ GIF)
    (h3 : format ≠ TIFF) (h4 : format ≠ BMP) :
    encode c img format quality = ([], some .unsupportedFormat) ∧
    toBytes c img format quality = .error .unsupportedFormat ∧
    (∀ (img' : Img) (fmt q : ℤ) (bs : List ℕ) (e : EngineError),
      encode c img' fmt q = (bs, some e) → toBytes c img' fmt q = .error e) := by
  have he : encode c img format quality = ([], some .unsupportedFormat) := by
    unfold encode
    rw [if_neg h0, if_neg h1, if_neg h2, if_neg h3, if_neg h4]
  refine ⟨he, by unfold toBytes; rw [he], ?_⟩
  intro img' fmt q bs e h
  unfold toBytes
  rw [h]

/-- Witness for C9 at the unsupported format value 5 (e.g. a WebP request;
`imaging.Format` defines only 0–4). -/
theorem c9_encode_unsupported_witness :
    toBytes trivialCodecs (.raster 8 8) 5 80 = .error .unsupportedFormat :=
  (c9_encode_unsupported trivialCodecs (.raster 8 8) 5 80
    (by decide) (by decide) (by decide) (by decide) (by decide)).2.1

/-- `Fit` returns the caller's source bytes verbatim exactly on the
animated-GIF early-exit branch: GIF output format, scaling factor strictly
above 1, and upscaling disabled. -/
theorem fit_passThrough_iff (source : List ℕ) (decoded : Img) (frames : List Img)
    (options : Options) :
    Fit source decoded frames options = .passThrough source ↔
      options.format = GIF ∧
      1 < scalingFactorImage decoded options.width options.height ∧
      options.upscale = false := by
  unfold Fit transformGIF
  by_cases hf : options.format = GIF
  · rw [if_pos hf]
    by_cases hc : 1 < scalingFactorImage decoded options.width options.height ∧
        options.upscale = false
    · rw [if_pos hc]
      simp [hf, hc]
    · rw [if_neg hc]
      simp [hf, hc]
  · rw [if_neg hf]
    simp [hf]

/-- C1 counterexample: a 10×10 source with a 10×10 destination box and
upscale disabled — the scaling policy reports pass-through
(`shouldTransform` is false at factor 1) — yet `Fit` does not return the
source bytes verbatim, neither on the GIF path (the early exit requires a
factor strictly above 1) nor on the single-frame path (which always
re-encodes). -/
theorem c1_counterexample :
    shouldTransform (scalingFactorImage (.raster 10 10) 10 10) false = false ∧
    Fit [1, 2, 3] (.raster 10 10) [.raster 10 10] ⟨10, 10, false, GIF, 85, 0, ""⟩ ≠
      .passThrough [1, 2, 3] ∧
    Fit [1, 2, 3] (.raster 10 10) [.raster 10 10] ⟨10, 10, false, PNG, 85, 0, ""⟩ ≠
      .passThrough [1, 2, 3] := by
  refine ⟨?_, ?_, ?_⟩
  · norm_num [shouldTransform, scalingFactorImage, scalingFactor, imageSize]
  · norm_num [Fit, GIF, transformGIF, scalingFactorImage, scalingFactor, imageSize]
    simp
  · norm_num [Fit, GIF, PNG]
    simp

/-- C1 amended: the pipeline returns the caller's encoded bytes verbatim only
on the animated-GIF path and only when the scaling factor strictly exceeds 1
with upscaling disabled; the single-frame path re-encodes even when the scale
step passes the raster through, and a destination box equal to the source's
dimensions yields factor exactly 1, so `Fit` then re-encodes on every
format. -/
theorem c1_fit_passthrough (source : List ℕ) (decoded : Img) (frames : List Img)
    (options : Options) :
    (Fit source decoded frames options = .passThrough source ↔
      options.format = GIF ∧
      1 < scalingFactorImage decoded options.width options.height ∧
      options.upscale = false) ∧
    (∀ (w h fmt quality degree : ℤ) (pos : String), 0 < w → 0 < h →
      Fit source (.raster w h) frames ⟨w, h, false, fmt, quality, degree, pos⟩ ≠
        .passThrough source) := by
  refine ⟨fit_passThrough_iff source decoded frames options, ?_⟩
  intro w h fmt quality degree pos hw hh hcontra
  obtain ⟨-, hfac, -⟩ :=
    (fit_passThrough_iff source (.raster w h) frames ⟨w, h, false, fmt, quality, degree, pos⟩).mp
      hcontra
  have hw0 : ((w : ℚ)) ≠ 0 := by
    exact_mod_cast hw.ne.symm
  have hh0 : ((h : ℚ)) ≠ 0 := by
    exact_mod_cast hh.ne.symm
  have h1 : scalingFactorImage (.raster w h) w h = 1 := by
    simp [scalingFactorImage, scalingFactor, imageSize, div_self hw0, div_self hh0]
  rw [h1] at hfac
  exact absurd hfac (lt_irrefl 1)

/-- Witness for C1 (amended) at a 10×10 source with a 10×10 box. -/
theorem c1_fit_passthrough_witness :
    Fit [1, 2, 3] (.raster 10 10) [] ⟨10, 10, false, PNG, 85, 0, ""⟩ ≠
      .passThrough [1, 2, 3] :=
  (c1_fit_passthrough [1, 2, 3] (.raster 10 10) [] ⟨10, 10, false, PNG, 85, 0, ""⟩).2
    10 10 PNG 85 0 "" (by norm_num) (by norm_num)

/-- C2 counterexample: a 100×50 first frame with a 50×50 destination box and
upscale disabled gives scaling factor exactly 1 — the single-frame `scale`
step passes the raster through unchanged, but the animated-GIF pipeline does
not take its early exit and re-encodes, so the two paths disagree. -/
theorem c2_counterexample :
    scale (.raster 100 50) ⟨50, 50, false, GIF, 85, 0, ""⟩ .thumbnail = .raster 100 50 ∧
    transformGIF [1, 2, 3] (.raster 100 50) [.raster 100 50]
        ⟨50, 50, false, GIF, 85, 0, ""⟩ .thumbnail ≠ .passThrough [1, 2, 3] := by
  constructor
  · exact (scale_eq_self_iff _ _ _).mpr
      (by norm_num [scalingFactorImage, scalingFactor, imageSize])
  · norm_num [transformGIF, scalingFactorImage, scalingFactor, imageSize]
    simp

/-- C2 amended: the single-frame scale step and the animated-GIF early exit
agree at every scaling factor other than exactly 1: away from factor 1,
`scale` passes the raster through unchanged precisely when `transformGIF`
returns the source bytes unchanged (at factor exactly 1 with upscaling
disabled, `scale` passes through while `transformGIF` re-encodes). -/
theorem c2_scale_gif_agreement (source : List ℕ) (first : Img) (frames : List Img)
    (options : Options) (trans : Transformation)
    (h : scalingFactorImage first options.width options.height ≠ 1) :
    (scale first options trans = first ↔
      transformGIF source first frames options trans = .passThrough source) := by
  rw [scale_eq_self_iff]
  unfold transformGIF
  by_cases hc : 1 < scalingFactorImage first options.width options.height ∧
      options.upscale = false
  · rw [if_pos hc]
    have hnot : ¬(scalingFactorImage first options.width options.height < 1 ∨
        options.upscale = true) := by
      rintro (h1 | h2)
      · exact absurd hc.1 (not_lt.mpr h1.le)
      · rw [hc.2] at h2
        exact Bool.false_ne_true h2
    simp [hnot]
  · rw [if_neg hc]
    have hyes : scalingFactorImage first options.width options.height < 1 ∨
        options.upscale = true := by
      rcases not_and_or.mp hc with h1 | h2
      · exact Or.inl (lt_of_le_of_ne (not_lt.mp h1) h)
      · exact Or.inr (by simpa using h2)
    simp [hyes]

/-- Witness for C2 (amended) at a 100×50 first frame with a 25×25 box
(factor 1/2). -/
theorem c2_scale_gif_agreement_witness :
    (scale (.raster 100 50) ⟨25, 25, false, GIF, 85, 0, ""⟩ .fit = .raster 100 50 ↔
      transformGIF [7] (.raster 100 50) [.raster 100 50]
          ⟨25, 25, false, GIF, 85, 0, ""⟩ .fit = .passThrough [7]) :=
  c2_scale_gif_agreement [7] (.raster 100 50) [.raster 100 50]
    ⟨25, 25, false, GIF, 85, 0, ""⟩ .fit
    (by norm_num [scalingFactorImage, scalingFactor, imageSize])

/-- C5 counterexample: on a GIF-format request `Fit` hands the Animation
Pipeline the `imaging.Thumbnail` (cover-and-crop) per-frame transformation,
not the fit-within one: at a 4×4 source scaled to a 2×2 box the result equals
the Thumbnail-driven pipeline output and differs from the Fit-driven one. -/
theorem c5_counterexample :
    Fit [1] (.raster 4 4) [.raster 4 4] ⟨2, 2, false, GIF, 85, 0, ""⟩ =
      transformGIF [1] (.raster 4 4) [.raster 4 4] ⟨2, 2, false, GIF, 85, 0, ""⟩
        .thumbnail ∧
    Fit [1] (.raster 4 4) [.raster 4 4] ⟨2, 2, false, GIF, 85, 0, ""⟩ ≠
      transformGIF [1] (.raster 4 4) [.raster 4 4] ⟨2, 2, false, GIF, 85, 0, ""⟩ .fit := by
  constructor
  · rfl
  · norm_num [Fit, GIF, transformGIF, gifFrameLoop, scale, shouldTransform,
      scalingFactorImage, scalingFactor, imageSize, backfillDims]
    decide

/-- C5 amended: `Fit` resamples single-frame inputs through the fit-within
(`imaging.Fit`) transformation, but delegates GIF-format inputs to the
Animation Pipeline with the cover-and-crop `imaging.Thumbnail` per-frame
transformation, which is a different transformation from fit-within. -/
theorem c5_fit_dispatch (source : List ℕ) (decoded : Img) (frames : List Img)
    (options : Options) :
    (options.format = GIF →
      Fit source decoded frames options =
        transformGIF source decoded frames options .thumbnail) ∧
    (options.format ≠ GIF →
      Fit source decoded frames options =
        .bytesEncode (scale decoded options .fit) options.format options.quality) ∧
    Transformation.thumbnail ≠ Transformation.fit := by
  refine ⟨fun h => ?_, fun h => ?_, by decide⟩
  · unfold Fit
    rw [if_pos h]
  · unfold Fit
    rw [if_neg h]

/-- Witness for C5 (amended) at a GIF-format request. -/
theorem c5_fit_dispatch_witness :
    Fit [1] (.raster 4 4) [.raster 4 4] ⟨2, 2, false, 2, 85, 0, ""⟩ =
      transformGIF [1] (.raster 4 4) [.raster 4 4] ⟨2, 2, false, 2, 85, 0, ""⟩
        .thumbnail :=
  (c5_fit_dispatch [1] (.raster 4 4) [.raster 4 4] ⟨2, 2, false, 2, 85, 0, ""⟩).1 rfl

end Picfit
